import Mathlib

set_option maxRecDepth 100000

/-!
Shallow embedding of the BLE manga-reader session engine from
`src/activities/bluetooth/KavitaMangaReaderActivity.{h,cpp}`.

Byte strings are modelled as `List Nat` (one element per byte), the
activity object as a structure holding the fields the engine reads and
writes, and the two execution paths of the source as pure state
transformers:

* `loop` models `KavitaMangaReaderActivity::loop()` for one polling
  tick, taking a `LoopInput` snapshot of the connection status and of
  the buttons `wasPressed` reports in that tick;
* `onWrite` models `RequestCallbacks::onWrite` (the asynchronous BLE
  characteristic callback that decodes one inbound frame);
* `onDisconnect` / `onConnect` model `ServerCallbacks`.

Outbound sends (`dataCharacteristic->setValue` + `notify`) are recorded
by appending the sent bytes to a `sent` log; the `onGoHome()` exit
callback is recorded by the `exited` flag.  Logging calls and
`requestUpdate()` (a payload-free UI redraw signal) have no effect on
the engine state and are not modelled.
-/

/-- States of the session state machine (`enum class KavitaMangaReaderState`
in the header). -/
inductive KavitaMangaReaderState where
  | CHECK_COMPANION_APP
  | WAITING_FOR_APP
  | LOAD_LIST
  | RECEIVING_LIST
  | BROWSING_LIST
  | LOAD_PAGE
  | RECEIVING_PAGE
  | DISPLAY_PAGE
  | ERROR
  deriving DecidableEq, Repr

/-- One catalog entry (`struct MangaEntry`): id and title byte strings. -/
structure MangaEntry where
  id : List Nat
  title : List Nat
  deriving DecidableEq, Repr

/-- The engine-relevant state of `KavitaMangaReaderActivity`:
session state, error message, catalog (`mangaList`), selection cursor
(`currentMangaIndex`), whether the two BLE characteristics were created
(`cmdCharacteristic` / `dataCharacteristic` non-null), the log of sent
messages, and whether `onGoHome()` has been invoked. -/
structure KavitaMangaReaderActivity where
  state : KavitaMangaReaderState
  errorMessage : String
  mangaList : List MangaEntry
  currentMangaIndex : Int
  cmdCharacteristicSet : Bool
  dataCharacteristicSet : Bool
  sent : List (List Nat)
  exited : Bool
  deriving DecidableEq, Repr

/-- Input snapshot for one polling-loop tick: connection status
(`bleServer && bleServer->getConnectedCount() > 0`) and which buttons
`mappedInput.wasPressed` reports during this tick. -/
structure LoopInput where
  connected : Bool
  backPressed : Bool
  confirmPressed : Bool
  upPressed : Bool
  downPressed : Bool
  leftPressed : Bool
  rightPressed : Bool
  pageBackPressed : Bool
  pageForwardPressed : Bool
  deriving DecidableEq, Repr

/-- `RequestCallbacks::onWrite`: decode one inbound frame (`data`,
`length`) and apply its effect.  Mirrors the source switch on the status
byte.  The `PAGE_START` and `PAGE_DATA` cases only log in the source
(storing the chunk is an unimplemented `TODO`, there is no page buffer
field), so they leave the activity unchanged here exactly as there. -/
def onWrite (a : KavitaMangaReaderActivity) (data : List Nat) :
    KavitaMangaReaderActivity :=
  if data.length = 0 then a
  else
    let status := data.getD 0 0
    if status = 0x10 then
      -- LIST_START
      { a with mangaList := [] }
    else if status = 0x11 then
      -- LIST_ENTRY: [status][id_length][id...][title_length][title...]
      if 3 ≤ data.length then
        let idLen := data.getD 1 0
        if 2 + idLen + 1 ≤ data.length then
          let id := (data.drop 2).take idLen
          let titleLen := data.getD (2 + idLen) 0
          if 2 + idLen + 1 + titleLen ≤ data.length then
            let title := (data.drop (2 + idLen + 1)).take titleLen
            { a with mangaList := a.mangaList ++ [{ id := id, title := title }] }
          else a
        else a
      else a
    else if status = 0x12 then
      -- LIST_END
      { a with
        currentMangaIndex := if a.mangaList.isEmpty then -1 else 0,
        state := KavitaMangaReaderState.BROWSING_LIST }
    else if status = 0x20 then
      -- PAGE_START: `TODO: Initialize page buffer` in the source
      a
    else if status = 0x21 then
      -- PAGE_DATA: the source parses offset and chunk but
      -- `TODO: Store chunk in page buffer at offset` — nothing stored
      a
    else if status = 0x22 then
      -- PAGE_END
      { a with state := KavitaMangaReaderState.DISPLAY_PAGE }
    else if status = 0x01 then
      -- ERROR reported by the companion app
      { a with
        errorMessage := "Companion app error",
        state := KavitaMangaReaderState.ERROR }
    else
      -- OK (0x00) and unknown status bytes: ignored
      a

/-- `ServerCallbacks::onDisconnect`: unconditionally returns to
`WAITING_FOR_APP`; no other field is touched. -/
def onDisconnect (a : KavitaMangaReaderActivity) : KavitaMangaReaderActivity :=
  { a with state := KavitaMangaReaderState.WAITING_FOR_APP }

/-- `ServerCallbacks::onConnect`: only updates connection parameters and
requests a redraw; no engine state changes. -/
def onConnect (a : KavitaMangaReaderActivity) : KavitaMangaReaderActivity :=
  a

/-- `KavitaMangaReaderActivity::onEnter`: reset session state, error
message, catalog and cursor (BLE setup and advertising are external). -/
def onEnter (a : KavitaMangaReaderActivity) : KavitaMangaReaderActivity :=
  { a with
    state := KavitaMangaReaderState.CHECK_COMPANION_APP,
    errorMessage := "",
    mangaList := [],
    currentMangaIndex := -1 }

/-- `handleCheckCompanionApp`: peer connected goes to LOAD_LIST,
otherwise WAITING_FOR_APP. -/
def handleCheckCompanionApp (a : KavitaMangaReaderActivity) (inp : LoopInput) :
    KavitaMangaReaderActivity :=
  if inp.connected then
    { a with state := KavitaMangaReaderState.LOAD_LIST }
  else
    { a with state := KavitaMangaReaderState.WAITING_FOR_APP }

/-- `handleWaitForCompanionApp`: move to LOAD_LIST once connected,
otherwise keep waiting. -/
def handleWaitForCompanionApp (a : KavitaMangaReaderActivity) (inp : LoopInput) :
    KavitaMangaReaderActivity :=
  if inp.connected then
    { a with state := KavitaMangaReaderState.LOAD_LIST }
  else a

/-- `handleLoadList`: clear the catalog, then send `REQUEST_LIST` (0x01)
and move to RECEIVING_LIST if the command characteristic exists,
otherwise record the error and move to ERROR. -/
def handleLoadList (a : KavitaMangaReaderActivity) (_inp : LoopInput) :
    KavitaMangaReaderActivity :=
  let a1 := { a with mangaList := [] }
  if a1.cmdCharacteristicSet then
    { a1 with
      sent := a1.sent ++ [[0x01]],
      state := KavitaMangaReaderState.RECEIVING_LIST }
  else
    { a1 with
      errorMessage := "BLE not initialized",
      state := KavitaMangaReaderState.ERROR }

/-- `handleReceiveList`: the loop just waits; frames arrive via `onWrite`. -/
def handleReceiveList (a : KavitaMangaReaderActivity) (_inp : LoopInput) :
    KavitaMangaReaderActivity :=
  a

/-- `handleBrowsingList`: Back exits via `onGoHome()`; otherwise Up and
Down move the cursor with clamping, in that order, and Confirm on a
valid selection moves to LOAD_PAGE. -/
def handleBrowsingList (a : KavitaMangaReaderActivity) (inp : LoopInput) :
    KavitaMangaReaderActivity :=
  if inp.backPressed then
    { a with exited := true }
  else
    let a1 :=
      if inp.upPressed ∧ 0 < a.currentMangaIndex then
        { a with currentMangaIndex := a.currentMangaIndex - 1 }
      else a
    let a2 :=
      if inp.downPressed ∧ a1.currentMangaIndex < (a1.mangaList.length : Int) - 1 then
        { a1 with currentMangaIndex := a1.currentMangaIndex + 1 }
      else a1
    if inp.confirmPressed ∧ 0 ≤ a2.currentMangaIndex ∧
        a2.currentMangaIndex < (a2.mangaList.length : Int) then
      { a2 with state := KavitaMangaReaderState.LOAD_PAGE }
    else a2

/-- The `REQUEST_PAGE` request buffer built in `handleLoadPage`:
`[CMD][mangaId length][mangaId][page number (2 bytes)]`.  The length
byte is `static_cast<uint8_t>(mangaId.length())`, hence the `% 256`;
the page number is hard-coded to 0 in the source (`TODO: track current
page`). -/
def requestPageBuffer (mangaId : List Nat) : List Nat :=
  0x02 :: mangaId.length % 256 :: (mangaId ++ [0, 0])

/-- `handleLoadPage`: an out-of-range cursor is an invalid selection and
goes to ERROR; otherwise the request is encoded and, if the data
characteristic exists, sent, moving to RECEIVING_PAGE; a missing data
characteristic goes to ERROR. -/
def handleLoadPage (a : KavitaMangaReaderActivity) (_inp : LoopInput) :
    KavitaMangaReaderActivity :=
  if a.currentMangaIndex < 0 ∨ (a.mangaList.length : Int) ≤ a.currentMangaIndex then
    { a with
      errorMessage := "Invalid manga selection",
      state := KavitaMangaReaderState.ERROR }
  else
    let mangaId :=
      (a.mangaList.getD a.currentMangaIndex.toNat { id := [], title := [] }).id
    if a.dataCharacteristicSet then
      { a with
        sent := a.sent ++ [requestPageBuffer mangaId],
        state := KavitaMangaReaderState.RECEIVING_PAGE }
    else
      { a with
        errorMessage := "BLE not initialized",
        state := KavitaMangaReaderState.ERROR }

/-- `handleReceivingPage`: the loop just waits; frames arrive via `onWrite`. -/
def handleReceivingPage (a : KavitaMangaReaderActivity) (_inp : LoopInput) :
    KavitaMangaReaderActivity :=
  a

/-- `handleDisplayPage`: Back returns to BROWSING_LIST; Left/PageBack and
Right/PageForward request another page via LOAD_PAGE. -/
def handleDisplayPage (a : KavitaMangaReaderActivity) (inp : LoopInput) :
    KavitaMangaReaderActivity :=
  if inp.backPressed then
    { a with state := KavitaMangaReaderState.BROWSING_LIST }
  else
    let a1 :=
      if inp.leftPressed || inp.pageBackPressed then
        { a with state := KavitaMangaReaderState.LOAD_PAGE }
      else a
    if inp.rightPressed || inp.pageForwardPressed then
      { a1 with state := KavitaMangaReaderState.LOAD_PAGE }
    else a1

/-- `handleError`: Back or Confirm dismiss the error via `onGoHome()`. -/
def handleError (a : KavitaMangaReaderActivity) (inp : LoopInput) :
    KavitaMangaReaderActivity :=
  if inp.backPressed || inp.confirmPressed then
    { a with exited := true }
  else a

/-- `KavitaMangaReaderActivity::loop`: one tick of the state-machine
dispatch. -/
def loop (a : KavitaMangaReaderActivity) (inp : LoopInput) :
    KavitaMangaReaderActivity :=
  match a.state with
  | KavitaMangaReaderState.CHECK_COMPANION_APP => handleCheckCompanionApp a inp
  | KavitaMangaReaderState.WAITING_FOR_APP => handleWaitForCompanionApp a inp
  | KavitaMangaReaderState.LOAD_LIST => handleLoadList a inp
  | KavitaMangaReaderState.RECEIVING_LIST => handleReceiveList a inp
  | KavitaMangaReaderState.BROWSING_LIST => handleBrowsingList a inp
  | KavitaMangaReaderState.LOAD_PAGE => handleLoadPage a inp
  | KavitaMangaReaderState.RECEIVING_PAGE => handleReceivingPage a inp
  | KavitaMangaReaderState.DISPLAY_PAGE => handleDisplayPage a inp
  | KavitaMangaReaderState.ERROR => handleError a inp

/-- A tick with no connection and no button pressed. -/
def noInput : LoopInput :=
  { connected := false, backPressed := false, confirmPressed := false,
    upPressed := false, downPressed := false, leftPressed := false,
    rightPressed := false, pageBackPressed := false,
    pageForwardPressed := false }

/-- A tick where only Back is pressed. -/
def backInput : LoopInput := { noInput with backPressed := true }

/-- A tick where only Confirm is pressed. -/
def confirmInput : LoopInput := { noInput with confirmPressed := true }

/-- A tick where only Up is pressed. -/
def upInput : LoopInput := { noInput with upPressed := true }

/-- A tick where only Down is pressed. -/
def downInput : LoopInput := { noInput with downPressed := true }

/-- A tick where only Left is pressed. -/
def leftInput : LoopInput := { noInput with leftPressed := true }

/-- A tick where only Right is pressed. -/
def rightInput : LoopInput := { noInput with rightPressed := true }

/-- A tick where only PageBack is pressed. -/
def pageBackInput : LoopInput := { noInput with pageBackPressed := true }

/-- A tick where only PageForward is pressed. -/
def pageForwardInput : LoopInput := { noInput with pageForwardPressed := true }

/-- A tick with a peer connected and no button pressed. -/
def connectedOnlyInput : LoopInput := { noInput with connected := true }

/-- The activity right after `onEnter` with both characteristics created,
used as a concrete base point. -/
def initialActivity : KavitaMangaReaderActivity :=
  { state := KavitaMangaReaderState.CHECK_COMPANION_APP,
    errorMessage := "",
    mangaList := [],
    currentMangaIndex := -1,
    cmdCharacteristicSet := true,
    dataCharacteristicSet := true,
    sent := [],
    exited := false }

/-- C10: a zero-length inbound frame makes the receive handler return at
once: the whole activity state (session state, catalog, cursor, error
message included) is unchanged. -/
theorem C10_emptyFrame (a : KavitaMangaReaderActivity) : onWrite a [] = a :=
  rfl

/-- C7: a peer-disconnected event moves any state to WAITING_FOR_APP
(the spec's WAIT_FOR_PEER) and leaves the catalog and the selection
cursor unchanged. -/
theorem C7_disconnect (a : KavitaMangaReaderActivity) :
    (onDisconnect a).state = KavitaMangaReaderState.WAITING_FOR_APP ∧
    (onDisconnect a).mangaList = a.mangaList ∧
    (onDisconnect a).currentMangaIndex = a.currentMangaIndex :=
  ⟨rfl, rfl, rfl⟩

/-- C2: processing a LIST_END frame sets the cursor to 0 when the catalog
is non-empty and to -1 when it is empty, and moves to BROWSING_LIST in
both cases, whatever the prior state. -/
theorem C2_listEnd (a : KavitaMangaReaderActivity) (rest : List Nat) :
    (onWrite a (0x12 :: rest)).currentMangaIndex =
      (if a.mangaList.isEmpty then -1 else 0) ∧
    (onWrite a (0x12 :: rest)).state = KavitaMangaReaderState.BROWSING_LIST :=
  ⟨rfl, rfl⟩

/-- C1 counterexample: the LIST_ENTRY frame `[0x11, 0, 0]` has payload
`[0, 0]` of length 2, which is shorter than `2 + L1 + 1 + L2 = 3` for
its declared lengths `L1 = 0`, `L2 = 0`, yet the handler appends one
entry: the code only needs payload length `1 + L1 + 1 + L2`. -/
theorem C1_counterexample :
    ([0, 0] : List Nat).length < 2 + 0 + 1 + 0 ∧
    (onWrite initialActivity [0x11, 0, 0]).mangaList.length =
      initialActivity.mangaList.length + 1 :=
  ⟨by decide, rfl⟩

/-- C1 (amended): for a LIST_ENTRY frame with payload `p`, reading
`L1 = p[0]` and `L2 = p[1 + L1]`, the handler appends exactly one entry
with id `p[1 .. 1+L1)` and title `p[2+L1 .. 2+L1+L2)` when the payload
length is at least `1 + L1 + 1 + L2`, and leaves the activity unchanged
for every shorter payload. -/
theorem C1_listEntry (a : KavitaMangaReaderActivity) (p : List Nat) :
    (2 + p.getD 0 0 + p.getD (1 + p.getD 0 0) 0 ≤ p.length →
      onWrite a (0x11 :: p) =
        { a with mangaList := a.mangaList ++
            [{ id := (p.drop 1).take (p.getD 0 0),
               title := (p.drop (2 + p.getD 0 0)).take
                 (p.getD (1 + p.getD 0 0) 0) }] }) ∧
    (p.length < 2 + p.getD 0 0 + p.getD (1 + p.getD 0 0) 0 →
      onWrite a (0x11 :: p) = a) := by
  have hL : (0x11 :: p).length = p.length + 1 := rfl
  have hg1 : (0x11 :: p).getD 1 0 = p.getD 0 0 := rfl
  have hg2 : ∀ n : Nat, (0x11 :: p).getD (2 + n) 0 = p.getD (1 + n) 0 := by
    intro n
    have e : 2 + n = (1 + n) + 1 := by omega
    rw [e, List.getD_cons_succ]
  have hd2 : (0x11 :: p).drop 2 = p.drop 1 := rfl
  have hd3 : ∀ n : Nat, (0x11 :: p).drop (2 + n + 1) = p.drop (2 + n) := by
    intro n
    have e : 2 + n + 1 = (2 + n) + 1 := rfl
    rw [e, List.drop_succ_cons]
  constructor
  · intro h
    unfold onWrite
    rw [if_neg (by simp), if_neg (by norm_num), if_pos (by norm_num)]
    simp only [hL, hg1, hg2, hd2, hd3]
    rw [if_pos (by omega), if_pos (by omega), if_pos (by omega)]
  · intro h
    unfold onWrite
    rw [if_neg (by simp), if_neg (by norm_num), if_pos (by norm_num)]
    simp only [hL, hg1, hg2, hd2, hd3]
    by_cases h3 : 3 ≤ p.length + 1
    · rw [if_pos h3]
      by_cases h4 : 2 + p.getD 0 0 + 1 ≤ p.length + 1
      · rw [if_pos h4, if_neg (by omega)]
      · rw [if_neg h4]
    · rw [if_neg h3]

/-- C1 witness: a well-formed LIST_ENTRY frame with id `[65]` and title
`[66]` appends exactly that entry. -/
theorem C1_listEntry_witness :
    onWrite initialActivity (0x11 :: [1, 65, 1, 66]) =
      { initialActivity with mangaList := [{ id := [65], title := [66] }] } :=
  (C1_listEntry initialActivity [1, 65, 1, 66]).1 (by decide)

/-- C3 counterexample: a PAGE_END ("page-end") frame received in
BROWSING_LIST — a state other than RECEIVING_PAGE, for which no
"page-end" row exists in the table — does NOT leave the state
unchanged: the handler moves to DISPLAY_PAGE from any state. -/
theorem C3_counterexample :
    (onWrite { initialActivity with state := KavitaMangaReaderState.BROWSING_LIST }
        [0x22]).state = KavitaMangaReaderState.DISPLAY_PAGE ∧
    KavitaMangaReaderState.BROWSING_LIST ≠ KavitaMangaReaderState.RECEIVING_PAGE ∧
    KavitaMangaReaderState.DISPLAY_PAGE ≠ KavitaMangaReaderState.BROWSING_LIST :=
  ⟨rfl, by decide, by decide⟩

/-- C5: the PAGE_DATA handler leaves the activity completely unchanged:
the source parses the offset and the chunk and then drops them (storing
the chunk is an unimplemented `TODO`, and no page buffer exists), so no
chunk is ever written anywhere. -/
theorem C5_pageDataDropped (a : KavitaMangaReaderActivity) (rest : List Nat) :
    onWrite a (0x21 :: rest) = a :=
  rfl

/-- C8: the inbound BLE write callback mutates the shared session state
and catalog directly instead of enqueuing: a LIST_END frame processed
by `onWrite` itself moves the state to BROWSING_LIST, and a LIST_START
frame processed by `onWrite` itself clears the catalog. -/
theorem C8_handlerMutatesDirectly :
    (onWrite { initialActivity with
        state := KavitaMangaReaderState.RECEIVING_LIST,
        mangaList := [{ id := [49], title := [65] }] } [0x12]).state =
      KavitaMangaReaderState.BROWSING_LIST ∧
    KavitaMangaReaderState.BROWSING_LIST ≠ KavitaMangaReaderState.RECEIVING_LIST ∧
    (onWrite { initialActivity with
        state := KavitaMangaReaderState.RECEIVING_LIST,
        mangaList := [{ id := [49], title := [65] }] } [0x10]).mangaList = [] ∧
    [({ id := [49], title := [65] } : MangaEntry)] ≠ ([] : List MangaEntry) :=
  ⟨rfl, by decide, rfl, by decide⟩

/-- C6 counterexample: with a selected manga whose id is 256 bytes long,
`handleLoadPage` raises no encoding error: it sends one message (state
moves to RECEIVING_PAGE) whose length byte is the truncated value
`256 % 256 = 0`. -/
theorem C6_counterexample :
    ((loop { initialActivity with
        state := KavitaMangaReaderState.LOAD_PAGE,
        mangaList := [{ id := List.replicate 256 65, title := [] }],
        currentMangaIndex := 0 } noInput).sent.length = 1) ∧
    ((loop { initialActivity with
        state := KavitaMangaReaderState.LOAD_PAGE,
        mangaList := [{ id := List.replicate 256 65, title := [] }],
        currentMangaIndex := 0 } noInput).state =
      KavitaMangaReaderState.RECEIVING_PAGE) ∧
    (((loop { initialActivity with
        state := KavitaMangaReaderState.LOAD_PAGE,
        mangaList := [{ id := List.replicate 256 65, title := [] }],
        currentMangaIndex := 0 } noInput).sent.getD 0 []).getD 1 99 = 0) ∧
    255 < (List.replicate 256 65).length :=
  ⟨rfl, rfl, by decide, by decide⟩

/-- C9 counterexample: in state LOAD_LIST — which is in neither
RECEIVING_LIST nor BROWSING_LIST — a single polling-loop tick clears a
non-empty catalog. -/
theorem C9_counterexample :
    ((loop { initialActivity with
        state := KavitaMangaReaderState.LOAD_LIST,
        mangaList := [{ id := [49], title := [65] }],
        currentMangaIndex := 0 } noInput).mangaList = []) ∧
    [({ id := [49], title := [65] } : MangaEntry)] ≠ ([] : List MangaEntry) ∧
    KavitaMangaReaderState.LOAD_LIST ≠ KavitaMangaReaderState.RECEIVING_LIST ∧
    KavitaMangaReaderState.LOAD_LIST ≠ KavitaMangaReaderState.BROWSING_LIST :=
  ⟨rfl, by decide, by decide, by decide⟩

/-- C6 (amended): encoding never fails and nothing is rejected: with a
valid selection and the data characteristic available, one LOAD_PAGE
tick always sends exactly the buffer `[0x02][idLen mod 256][id][0][0]`
and moves to RECEIVING_PAGE; for ids of length at most 255 that buffer
is exactly the tag, the exact 1-byte id length, the id bytes, and the
2-byte big-endian page number (0 in the source). -/
theorem C6_requestPage (a : KavitaMangaReaderActivity) (inp : LoopInput)
    (hst : a.state = KavitaMangaReaderState.LOAD_PAGE)
    (h0 : 0 ≤ a.currentMangaIndex)
    (h1 : a.currentMangaIndex < (a.mangaList.length : Int))
    (hd : a.dataCharacteristicSet = true) :
    (loop a inp = { a with
        sent := a.sent ++ [requestPageBuffer
          ((a.mangaList.getD a.currentMangaIndex.toNat
            { id := [], title := [] }).id)],
        state := KavitaMangaReaderState.RECEIVING_PAGE }) ∧
    (∀ mangaId : List Nat, mangaId.length ≤ 255 →
      requestPageBuffer mangaId = 0x02 :: mangaId.length :: (mangaId ++ [0, 0])) := by
  constructor
  · have hcond : ¬ (a.currentMangaIndex < 0 ∨
        (a.mangaList.length : Int) ≤ a.currentMangaIndex) := by
      push_neg
      exact ⟨h0, h1⟩
    simp [loop, hst, handleLoadPage, hcond, hd]
  · intro mangaId hm
    simp [requestPageBuffer, Nat.mod_eq_of_lt (by omega : mangaId.length < 256)]

/-- C6 witness: a valid 1-byte id `[65]` is sent as
`[0x02, 1, 65, 0, 0]` and the state moves to RECEIVING_PAGE. -/
theorem C6_requestPage_witness :
    loop { state := KavitaMangaReaderState.LOAD_PAGE, errorMessage := "",
           mangaList := [{ id := [65], title := [66] }], currentMangaIndex := 0,
           cmdCharacteristicSet := true, dataCharacteristicSet := true,
           sent := [], exited := false } noInput =
      { state := KavitaMangaReaderState.RECEIVING_PAGE, errorMessage := "",
        mangaList := [{ id := [65], title := [66] }], currentMangaIndex := 0,
        cmdCharacteristicSet := true, dataCharacteristicSet := true,
        sent := [[0x02, 1, 65, 0, 0]], exited := false } :=
  (C6_requestPage
    { state := KavitaMangaReaderState.LOAD_PAGE, errorMessage := "",
      mangaList := [{ id := [65], title := [66] }], currentMangaIndex := 0,
      cmdCharacteristicSet := true, dataCharacteristicSet := true,
      sent := [], exited := false } noInput rfl (by decide) (by decide) rfl).1

/-- One BROWSING_LIST tick without Back and without Confirm keeps the
state, keeps the catalog, and keeps the cursor inside
`[0, len(Catalog) - 1]` when it started there. -/
theorem browsingStep_invariant (a : KavitaMangaReaderActivity) (inp : LoopInput)
    (hst : a.state = KavitaMangaReaderState.BROWSING_LIST)
    (hb : inp.backPressed = false) (hc : inp.confirmPressed = false)
    (h0 : 0 ≤ a.currentMangaIndex)
    (h1 : a.currentMangaIndex < (a.mangaList.length : Int)) :
    (loop a inp).state = KavitaMangaReaderState.BROWSING_LIST ∧
    (loop a inp).mangaList = a.mangaList ∧
    0 ≤ (loop a inp).currentMangaIndex ∧
    (loop a inp).currentMangaIndex < ((loop a inp).mangaList.length : Int) := by
  simp only [loop, hst, handleBrowsingList, hb, hc, Bool.false_eq_true, if_false,
    false_and, and_self]
  split_ifs <;> simp_all <;> omega

/-- C4: starting from BROWSING_LIST with a cursor inside
`[0, len(Catalog) - 1]`, any finite sequence of ticks that press neither
Back nor Confirm (so in particular any sequence of Up and Down inputs,
however often repeated) keeps the catalog unchanged and the cursor
inside `[0, len(Catalog) - 1]`. -/
theorem C4_cursorBounds (a : KavitaMangaReaderActivity) (inps : List LoopInput)
    (hst : a.state = KavitaMangaReaderState.BROWSING_LIST)
    (h0 : 0 ≤ a.currentMangaIndex)
    (h1 : a.currentMangaIndex < (a.mangaList.length : Int))
    (honly : ∀ i ∈ inps, i.backPressed = false ∧ i.confirmPressed = false) :
    ((inps.foldl loop a).state = KavitaMangaReaderState.BROWSING_LIST) ∧
    ((inps.foldl loop a).mangaList = a.mangaList) ∧
    (0 ≤ (inps.foldl loop a).currentMangaIndex) ∧
    ((inps.foldl loop a).currentMangaIndex <
      ((inps.foldl loop a).mangaList.length : Int)) := by
  induction inps generalizing a with
  | nil => exact ⟨hst, rfl, h0, h1⟩
  | cons i rest ih =>
    have hi : i.backPressed = false ∧ i.confirmPressed = false :=
      honly i (List.mem_cons_self i rest)
    obtain ⟨hs2, hm2, h02, h12⟩ := browsingStep_invariant a i hst hi.1 hi.2 h0 h1
    have hrest : ∀ j ∈ rest, j.backPressed = false ∧ j.confirmPressed = false :=
      fun j hj => honly j (List.mem_cons_of_mem i hj)
    have hfold := ih (loop a i) hs2 h02 h12 hrest
    simp only [List.foldl_cons]
    exact ⟨hfold.1, hfold.2.1.trans hm2, hfold.2.2.1, hfold.2.2.2⟩

/-- A two-entry catalog being browsed with the cursor on the first
entry, used as a concrete base point. -/
def browsingTwo : KavitaMangaReaderActivity :=
  { initialActivity with
    state := KavitaMangaReaderState.BROWSING_LIST,
    mangaList := [{ id := [49], title := [65] }, { id := [50], title := [66] }],
    currentMangaIndex := 0 }

/-- C4 witness: two Down presses followed by three Up presses on a
two-entry catalog keep the cursor inside `[0, 1]`. -/
theorem C4_cursorBounds_witness :
    0 ≤ ([downInput, downInput, upInput, upInput, upInput].foldl loop
      browsingTwo).currentMangaIndex ∧
    ([downInput, downInput, upInput, upInput, upInput].foldl loop
        browsingTwo).currentMangaIndex <
      (([downInput, downInput, upInput, upInput, upInput].foldl loop
        browsingTwo).mangaList.length : Int) := by
  have h := C4_cursorBounds browsingTwo
    [downInput, downInput, upInput, upInput, upInput]
    rfl (by decide) (by decide) (by decide)
  exact ⟨h.2.2.1, h.2.2.2⟩

/-- C9 (amended): the polling loop mutates catalog and cursor only in
LOAD_LIST (which clears the catalog when issuing the request) and
BROWSING_LIST; every other loop state leaves both unchanged.  The
inbound handler mutates them only on the list tags LIST_START (0x10),
LIST_ENTRY (0x11) and LIST_END (0x12) — but does so in ANY session
state; every other frame leaves both unchanged, as do the connect and
disconnect callbacks. -/
theorem C9_mutationOutsideListStates (a : KavitaMangaReaderActivity) :
    (∀ inp : LoopInput,
      a.state ≠ KavitaMangaReaderState.LOAD_LIST →
      a.state ≠ KavitaMangaReaderState.BROWSING_LIST →
      (loop a inp).mangaList = a.mangaList ∧
      (loop a inp).currentMangaIndex = a.currentMangaIndex) ∧
    (∀ t : Nat, ∀ rest : List Nat, t ≠ 0x10 → t ≠ 0x11 → t ≠ 0x12 →
      (onWrite a (t :: rest)).mangaList = a.mangaList ∧
      (onWrite a (t :: rest)).currentMangaIndex = a.currentMangaIndex) ∧
    onWrite a [] = a ∧
    (onDisconnect a).mangaList = a.mangaList ∧
    (onDisconnect a).currentMangaIndex = a.currentMangaIndex ∧
    onConnect a = a := by
  refine ⟨?_, ?_, rfl, rfl, rfl, rfl⟩
  · intro inp hL hB
    cases hs : a.state
    case LOAD_LIST => exact absurd hs hL
    case BROWSING_LIST => exact absurd hs hB
    case CHECK_COMPANION_APP =>
      simp only [loop, hs, handleCheckCompanionApp]
      split_ifs <;> exact ⟨rfl, rfl⟩
    case WAITING_FOR_APP =>
      simp only [loop, hs, handleWaitForCompanionApp]
      split_ifs <;> exact ⟨rfl, rfl⟩
    case RECEIVING_LIST =>
      simp [loop, hs, handleReceiveList]
    case LOAD_PAGE =>
      simp only [loop, hs, handleLoadPage]
      split_ifs <;> exact ⟨rfl, rfl⟩
    case RECEIVING_PAGE =>
      simp [loop, hs, handleReceivingPage]
    case DISPLAY_PAGE =>
      simp only [loop, hs, handleDisplayPage]
      split_ifs <;> exact ⟨rfl, rfl⟩
    case ERROR =>
      simp only [loop, hs, handleError]
      split_ifs <;> exact ⟨rfl, rfl⟩
  · intro t rest h10 h11 h12
    unfold onWrite
    simp only [List.length_cons, List.getD_cons_zero]
    rw [if_neg (by omega)]
    rw [if_neg h10, if_neg h11, if_neg h12]
    split_ifs <;> exact ⟨rfl, rfl⟩

/-- The activity while a page is being displayed, used as a concrete
base point. -/
def displayPageActivity : KavitaMangaReaderActivity :=
  { initialActivity with
    state := KavitaMangaReaderState.DISPLAY_PAGE,
    mangaList := [{ id := [49], title := [65] }],
    currentMangaIndex := 0 }

/-- C9 witness: in DISPLAY_PAGE, a loop tick and a PAGE_END frame both
leave catalog and cursor unchanged. -/
theorem C9_mutationOutsideListStates_witness :
    (loop displayPageActivity noInput).mangaList = displayPageActivity.mangaList ∧
    (onWrite displayPageActivity [0x22]).mangaList = displayPageActivity.mangaList ∧
    (onWrite displayPageActivity [0x22]).currentMangaIndex =
      displayPageActivity.currentMangaIndex := by
  have h := C9_mutationOutsideListStates displayPageActivity
  exact ⟨(h.1 noInput (by decide) (by decide)).1,
    (h.2.1 0x22 [] (by decide) (by decide) (by decide)).1,
    (h.2.1 0x22 [] (by decide) (by decide) (by decide)).2⟩

/-- C3 (amended): the listed loop/input/connection transitions hold and
loop/input triggers not listed for a state leave the state unchanged —
with LOAD_PAGE additionally going to ERROR when the transport is
unavailable — but inbound protocol messages are decoded without
consulting the current state: list-end sets BROWSING_LIST, page-end
sets DISPLAY_PAGE, and a peer error sets ERROR, each from ANY state,
while every other inbound tag leaves the state unchanged; a
peer-disconnected event sets WAITING_FOR_APP from any state. -/
theorem C3_transitions (a : KavitaMangaReaderActivity) :
    (a.state = KavitaMangaReaderState.CHECK_COMPANION_APP → ∀ inp : LoopInput,
      (loop a inp).state = (if inp.connected then KavitaMangaReaderState.LOAD_LIST
        else KavitaMangaReaderState.WAITING_FOR_APP)) ∧
    (a.state = KavitaMangaReaderState.WAITING_FOR_APP → ∀ inp : LoopInput,
      (inp.connected = true →
        (loop a inp).state = KavitaMangaReaderState.LOAD_LIST) ∧
      (inp.connected = false → loop a inp = a)) ∧
    (a.state = KavitaMangaReaderState.LOAD_LIST → ∀ inp : LoopInput,
      (a.cmdCharacteristicSet = true →
        (loop a inp).state = KavitaMangaReaderState.RECEIVING_LIST) ∧
      (a.cmdCharacteristicSet = false →
        (loop a inp).state = KavitaMangaReaderState.ERROR)) ∧
    (a.state = KavitaMangaReaderState.RECEIVING_LIST → ∀ inp : LoopInput,
      loop a inp = a) ∧
    (a.state = KavitaMangaReaderState.BROWSING_LIST →
      ((loop a backInput).exited = true ∧
        (loop a backInput).state = KavitaMangaReaderState.BROWSING_LIST) ∧
      (0 ≤ a.currentMangaIndex → a.currentMangaIndex < (a.mangaList.length : Int) →
        (loop a confirmInput).state = KavitaMangaReaderState.LOAD_PAGE) ∧
      (¬ (0 ≤ a.currentMangaIndex ∧
          a.currentMangaIndex < (a.mangaList.length : Int)) →
        loop a confirmInput = a) ∧
      (loop a upInput).state = KavitaMangaReaderState.BROWSING_LIST ∧
      (loop a downInput).state = KavitaMangaReaderState.BROWSING_LIST ∧
      loop a noInput = a ∧ loop a leftInput = a ∧ loop a rightInput = a ∧
      loop a pageBackInput = a ∧ loop a pageForwardInput = a ∧
      loop a connectedOnlyInput = a) ∧
    (a.state = KavitaMangaReaderState.LOAD_PAGE → ∀ inp : LoopInput,
      ((a.currentMangaIndex < 0 ∨
          (a.mangaList.length : Int) ≤ a.currentMangaIndex) →
        (loop a inp).state = KavitaMangaReaderState.ERROR) ∧
      (0 ≤ a.currentMangaIndex → a.currentMangaIndex < (a.mangaList.length : Int) →
        a.dataCharacteristicSet = true →
        (loop a inp).state = KavitaMangaReaderState.RECEIVING_PAGE) ∧
      (0 ≤ a.currentMangaIndex → a.currentMangaIndex < (a.mangaList.length : Int) →
        a.dataCharacteristicSet = false →
        (loop a inp).state = KavitaMangaReaderState.ERROR)) ∧
    (a.state = KavitaMangaReaderState.RECEIVING_PAGE → ∀ inp : LoopInput,
      loop a inp = a) ∧
    (a.state = KavitaMangaReaderState.DISPLAY_PAGE →
      (loop a backInput).state = KavitaMangaReaderState.BROWSING_LIST ∧
      (loop a leftInput).state = KavitaMangaReaderState.LOAD_PAGE ∧
      (loop a pageBackInput).state = KavitaMangaReaderState.LOAD_PAGE ∧
      (loop a rightInput).state = KavitaMangaReaderState.LOAD_PAGE ∧
      (loop a pageForwardInput).state = KavitaMangaReaderState.LOAD_PAGE ∧
      loop a noInput = a ∧ loop a upInput = a ∧ loop a downInput = a ∧
      loop a confirmInput = a ∧ loop a connectedOnlyInput = a) ∧
    (a.state = KavitaMangaReaderState.ERROR →
      (loop a backInput).exited = true ∧
      (loop a confirmInput).exited = true ∧
      loop a noInput = a ∧ loop a upInput = a ∧ loop a downInput = a ∧
      loop a leftInput = a ∧ loop a rightInput = a ∧
      loop a pageBackInput = a ∧ loop a pageForwardInput = a ∧
      loop a connectedOnlyInput = a) ∧
    (∀ rest : List Nat,
      (onWrite a (0x12 :: rest)).state = KavitaMangaReaderState.BROWSING_LIST ∧
      (onWrite a (0x22 :: rest)).state = KavitaMangaReaderState.DISPLAY_PAGE ∧
      (onWrite a (0x01 :: rest)).state = KavitaMangaReaderState.ERROR) ∧
    (∀ t : Nat, ∀ rest : List Nat, t ≠ 0x01 → t ≠ 0x12 → t ≠ 0x22 →
      (onWrite a (t :: rest)).state = a.state) ∧
    (onDisconnect a).state = KavitaMangaReaderState.WAITING_FOR_APP := by
  refine ⟨?_, ?_, ?_, ?_, ?_, ?_, ?_, ?_, ?_, ?_, ?_, rfl⟩
  · intro h inp
    simp only [loop, h, handleCheckCompanionApp]
    split_ifs <;> rfl
  · intro h inp
    constructor <;> intro hcon <;>
      simp [loop, h, handleWaitForCompanionApp, hcon]
  · intro h inp
    constructor <;> intro hcmd <;>
      simp [loop, h, handleLoadList, hcmd]
  · intro h inp
    simp [loop, h, handleReceiveList]
  · intro h
    refine ⟨⟨?_, ?_⟩, ?_, ?_, ?_, ?_, ?_, ?_, ?_, ?_, ?_, ?_⟩
    · simp [loop, h, handleBrowsingList, backInput, noInput]
    · simp [loop, h, handleBrowsingList, backInput, noInput]
    · intro h0 h1
      simp [loop, h, handleBrowsingList, confirmInput, noInput, h0, h1]
    · intro hnv
      simp only [loop, h, handleBrowsingList, confirmInput, noInput]
      simp only [Bool.false_eq_true, if_false, false_and, if_true, true_and]
      rw [if_neg hnv]
    · simp only [loop, h, handleBrowsingList, upInput, noInput]
      simp only [Bool.false_eq_true, if_false, false_and, if_true, true_and]
      split_ifs <;> simp [h]
    · simp only [loop, h, handleBrowsingList, downInput, noInput]
      simp only [Bool.false_eq_true, if_false, false_and, if_true, true_and]
      split_ifs <;> simp [h]
    · simp [loop, h, handleBrowsingList, noInput]
    · simp [loop, h, handleBrowsingList, leftInput, noInput]
    · simp [loop, h, handleBrowsingList, rightInput, noInput]
    · simp [loop, h, handleBrowsingList, pageBackInput, noInput]
    · simp [loop, h, handleBrowsingList, pageForwardInput, noInput]
    · simp [loop, h, handleBrowsingList, connectedOnlyInput, noInput]
  · intro h inp
    refine ⟨?_, ?_, ?_⟩
    · intro hinv
      simp [loop, h, handleLoadPage, hinv]
    · intro h0 h1 hd
      have hcond : ¬ (a.currentMangaIndex < 0 ∨
          (a.mangaList.length : Int) ≤ a.currentMangaIndex) := by
        push_neg
        exact ⟨h0, h1⟩
      simp [loop, h, handleLoadPage, hcond, hd]
    · intro h0 h1 hd
      have hcond : ¬ (a.currentMangaIndex < 0 ∨
          (a.mangaList.length : Int) ≤ a.currentMangaIndex) := by
        push_neg
        exact ⟨h0, h1⟩
      simp [loop, h, handleLoadPage, hcond, hd]
  · intro h inp
    simp [loop, h, handleReceivingPage]
  · intro h
    refine ⟨?_, ?_, ?_, ?_, ?_, ?_, ?_, ?_, ?_, ?_⟩ <;>
      simp [loop, h, handleDisplayPage, backInput, leftInput, pageBackInput,
        rightInput, pageForwardInput, upInput, downInput, confirmInput,
        connectedOnlyInput, noInput]
  · intro h
    refine ⟨?_, ?_, ?_, ?_, ?_, ?_, ?_, ?_, ?_, ?_⟩ <;>
      simp [loop, h, handleError, backInput, confirmInput, upInput, downInput,
        leftInput, rightInput, pageBackInput, pageForwardInput,
        connectedOnlyInput, noInput]
  · intro rest
    exact ⟨rfl, rfl, rfl⟩
  · intro t rest h01 h12 h22
    unfold onWrite
    simp only [List.length_cons, List.getD_cons_zero]
    rw [if_neg (by omega)]
    split_ifs <;> simp_all

/-- C3 witness: with a peer connected, CHECK_COMPANION_APP goes to
LOAD_LIST, and Confirm on a valid selection in BROWSING_LIST goes to
LOAD_PAGE. -/
theorem C3_transitions_witness :
    (loop initialActivity { noInput with connected := true }).state =
      KavitaMangaReaderState.LOAD_LIST ∧
    (loop browsingTwo confirmInput).state = KavitaMangaReaderState.LOAD_PAGE := by
  have h1 := (C3_transitions initialActivity).1 rfl { noInput with connected := true }
  have h2 := (C3_transitions browsingTwo).2.2.2.2.1 rfl
  exact ⟨by simpa using h1, h2.2.1 (by decide) (by decide)⟩
